import Mathlib

/-!
Shallow embedding of the label-check compliance application, covering the
compliance-scoring summary (`supabase/functions/run-compliance-check/index.ts`),
the regulatory change-detection pipeline
(`supabase/functions/check-regulations/index.ts`), the admin suggestion review
workflow (`src/pages/admin/RuleUpdates.tsx`), the web-search suggestion
validation (`supabase/functions/perplexity-regulatory-search/index.ts` and
`supabase/functions/groq-regulatory-check/index.ts`), and the citation
resolver (`src/lib/citationResolver.ts`).

External effects (HTTP calls to the scraping service and AI endpoints, the
SHA-256 digest computed by `crypto.subtle`, `JSON.parse`, and `new URL`
validation) are modelled as explicit parameters; database tables are modelled
as lists of rows; JavaScript truthiness of nullable strings and numbers is
modelled explicitly (`jsOrStr`, `jsOrOptStr`, `jsOrInt`, `jsOrNull`).
-/

namespace LabelCheck

/-! ## run-compliance-check: summary calculation -/

/-- One element of the JSON array returned by the compliance-scoring model
(`run-compliance-check/index.ts`, response schema in the system prompt).
The summary calculation reads only `status`. -/
structure ComplianceResult where
  ruleId : String
  status : String
  foundValue : String
  expectedValue : String
  explanation : String
  panelFound : String
deriving Repr, DecidableEq

/-- Model of `results.filter(r => r.status === 'pass').length` (index.ts line 160). -/
def passCount (results : List ComplianceResult) : Nat :=
  (results.filter (fun r => r.status == "pass")).length

/-- Model of `results.filter(r => r.status === 'warning').length` (index.ts line 161). -/
def warningCount (results : List ComplianceResult) : Nat :=
  (results.filter (fun r => r.status == "warning")).length

/-- Model of `results.filter(r => r.status === 'fail').length` (index.ts line 162). -/
def failCount (results : List ComplianceResult) : Nat :=
  (results.filter (fun r => r.status == "fail")).length

/-- Model of `failCount > 0 ? 'fail' : warningCount > 0 ? 'warning' : 'pass'`
(index.ts line 164). -/
def overallStatus (results : List ComplianceResult) : String :=
  if failCount results > 0 then "fail"
  else if warningCount results > 0 then "warning"
  else "pass"

/-- The `summary` object returned by run-compliance-check and persisted onto
`compliance_checks` by `NewCheck.tsx` (lines 272-282). -/
structure CheckSummary where
  passCount : Nat
  warningCount : Nat
  failCount : Nat
  overallStatus : String
deriving Repr, DecidableEq

/-- Summary calculation of `run-compliance-check/index.ts` lines 159-164. -/
def computeSummary (results : List ComplianceResult) : CheckSummary :=
  { passCount := passCount results
    warningCount := warningCount results
    failCount := failCount results
    overallStatus := overallStatus results }

/-! ## JS string helpers

List-based models of the JS string methods used by the code
(`includes`, `toUpperCase`, `toLowerCase`, `trim`), written by structural
recursion so that concrete instances evaluate inside the kernel. -/

/-- Does `needle` occur at the head of `hay`? (exact characters) -/
def charsStartsWith : List Char → List Char → Bool
  | _, [] => true
  | [], _ :: _ => false
  | a :: as, b :: bs => a == b && charsStartsWith as bs

/-- Does `needle` occur contiguously anywhere in `hay`? -/
def charsIncludes : List Char → List Char → Bool
  | [], needle => needle.isEmpty
  | hay@(_ :: t), needle => charsStartsWith hay needle || charsIncludes t needle

/-- JS `hay.includes(needle)`. -/
def strIncludes (hay needle : String) : Bool :=
  charsIncludes hay.data needle.data

/-- JS `s.toUpperCase()` (ASCII case mapping suffices for the inputs the
code compares: state abbreviations). -/
def strToUpper (s : String) : String :=
  String.mk (s.data.map Char.toUpper)

/-- JS `s.toLowerCase()` (ASCII case mapping suffices for rule names). -/
def strToLower (s : String) : String :=
  String.mk (s.data.map Char.toLower)

/-- JS `s.trim()`: strip leading and trailing whitespace. -/
def strTrim (s : String) : String :=
  String.mk (((s.data.dropWhile Char.isWhitespace).reverse.dropWhile
    Char.isWhitespace).reverse)

/-! ## check-regulations: per-source pipeline step -/

/-- A `regulatory_sources` row as read by `check-regulations/index.ts`
(the `states` join and `check_frequency_days` are not used by the step
modelled here). -/
structure RegulatorySource where
  id : String
  state_id : String
  source_name : String
  source_url : String
  content_hash : Option String
  last_checked : Option String
  last_content_change : Option String
deriving Repr, DecidableEq

/-- A `compliance_rules` row as selected for the AI context (step 3). -/
structure ExistingRule where
  id : String
  name : String
  description : String
  category : String
  severity : String
  citation : Option String
  validation_prompt : String
deriving Repr, DecidableEq

/-- One suggestion object parsed from the Diff Analyzer model's JSON array
(`check-regulations/index.ts` lines 296-306). -/
structure AISuggestion where
  change_type : String
  existing_rule_name : Option String
  suggested_name : String
  suggested_description : String
  suggested_category : String
  suggested_severity : String
  suggested_citation : Option String
  ai_reasoning : String
  source_excerpt : Option String
deriving Repr, DecidableEq

/-- A `rule_change_suggestions` row as inserted by check-regulations
(lines 355-371). -/
structure SuggestionRow where
  state_id : String
  source_id : String
  existing_rule_id : Option String
  change_type : String
  suggested_name : String
  suggested_description : String
  suggested_category : String
  suggested_severity : String
  suggested_validation_prompt : String
  suggested_citation : Option String
  ai_reasoning : String
  source_excerpt : Option String
  status : String
deriving Repr, DecidableEq

/-- One element of the `results` array pushed per source (the `error` field
is omitted; only `status` distinguishes error kinds here). -/
structure SourceResult where
  content_changed : Bool
  suggestions_created : Nat
  status : String
deriving Repr, DecidableEq

/-- The effect of processing one source: the resulting
`rule_change_suggestions` table, the updated source row, the pushed result,
and a ghost flag recording whether the AI Diff Analyzer endpoint was called. -/
structure StepOutput where
  db : List SuggestionRow
  source : RegulatorySource
  result : SourceResult
  aiInvoked : Bool
deriving Repr, DecidableEq

/-- Model of `responseContent.match(/\[[\s\S]*\]/)` (line 310): the regex
matches from the first `[` to the last `]` of the text, provided some `]`
occurs after the first `[`; otherwise there is no match. -/
def extractArraySegment (s : String) : Option String :=
  let cs := s.data
  match cs.findIdx? (fun c => c == '[') with
  | none => none
  | some i =>
    match cs.reverse.findIdx? (fun c => c == ']') with
    | none => none
    | some rj =>
      let j := cs.length - 1 - rj
      if i < j then some (String.mk ((cs.drop i).take (j - i + 1))) else none

/-- Number of rows matching the duplicate-suggestion query (lines 342-348:
`.eq('state_id', ...).eq('suggested_name', ...).eq('status', 'pending')`).
`.single()` returns a row (and the code skips) exactly when this is 1. -/
def countPendingMatches (db : List SuggestionRow) (stateId name : String) : Nat :=
  db.countP (fun row =>
    row.state_id == stateId && row.suggested_name == name && row.status == "pending")

/-- Lookup of `existingRuleId` for update/deprecation suggestions
(lines 333-339); JS truthiness makes an empty `existing_rule_name` skip the
lookup. -/
def lookupExistingRuleId (existingRules : List ExistingRule) (s : AISuggestion) :
    Option String :=
  if s.change_type ≠ "new" then
    match s.existing_rule_name with
    | some n =>
      if n = "" then none
      else (existingRules.find? (fun r => strToLower r.name == strToLower n)).map (fun r => r.id)
    | none => none
  else none

/-- The row inserted for a suggestion (lines 355-371). -/
def suggestionRowOf (source : RegulatorySource) (existingRuleId : Option String)
    (s : AISuggestion) : SuggestionRow :=
  { state_id := source.state_id
    source_id := source.id
    existing_rule_id := existingRuleId
    change_type := s.change_type
    suggested_name := s.suggested_name
    suggested_description := s.suggested_description
    suggested_category := s.suggested_category
    suggested_severity := s.suggested_severity
    suggested_validation_prompt := "Verify compliance with: " ++ s.suggested_description
    suggested_citation := s.suggested_citation
    ai_reasoning := s.ai_reasoning
    source_excerpt := s.source_excerpt
    status := "pending" }

/-- Step 5 of check-regulations (lines 329-378): iterate the parsed
suggestions, skip any whose `(state_id, suggested_name)` has exactly one
`pending` row, insert the rest, counting successful inserts. -/
def insertSuggestions (source : RegulatorySource) (existingRules : List ExistingRule) :
    List AISuggestion → List SuggestionRow → Nat → List SuggestionRow × Nat
  | [], db, created => (db, created)
  | s :: rest, db, created =>
    if countPendingMatches db source.state_id s.suggested_name = 1 then
      insertSuggestions source existingRules rest db created
    else
      insertSuggestions source existingRules rest
        (db ++ [suggestionRowOf source (lookupExistingRuleId existingRules s) s])
        (created + 1)

/-- One iteration of the per-source loop of `check-regulations/index.ts`
(lines 148-418). `hashFn` models `generateContentHash` (SHA-256 hex digest),
`jsonParse` models `JSON.parse` on the extracted array segment (`none` models
a parse exception), `scrape` the Firecrawl outcome and `ai` the AI gateway
outcome. -/
def processSource (hashFn : String → String)
    (jsonParse : String → Option (List AISuggestion)) (now : String) (force : Bool)
    (source : RegulatorySource) (scrape : Except String String)
    (ai : Except String String) (existingRules : List ExistingRule)
    (db : List SuggestionRow) : StepOutput :=
  match scrape with
  | .error _ => ⟨db, source, ⟨false, 0, "scrape_error"⟩, false⟩
  | .ok content =>
    let newContentHash := hashFn content
    -- `if (!contentChanged && !forceCheck)` (line 178)
    if source.content_hash = some newContentHash ∧ force = false then
      ⟨db, { source with last_checked := some now }, ⟨false, 0, "no_changes"⟩, false⟩
    else
      let contentChanged : Bool := decide (source.content_hash ≠ some newContentHash)
      match ai with
      | .error _ => ⟨db, source, ⟨contentChanged, 0, "ai_error"⟩, true⟩
      | .ok responseContent =>
        -- `let suggestions = []; try { const jsonMatch = ...; if (jsonMatch)
        -- { suggestions = JSON.parse(jsonMatch[0]); } } catch { parse_error }`
        let parsed : Option (List AISuggestion) :=
          match extractArraySegment responseContent with
          | none => some []
          | some seg => jsonParse seg
        match parsed with
        | none => ⟨db, source, ⟨contentChanged, 0, "parse_error"⟩, true⟩
        | some suggestions =>
          let inserted := insertSuggestions source existingRules suggestions db 0
          let source2 :=
            if contentChanged then
              { source with last_checked := some now, content_hash := some newContentHash,
                            last_content_change := some now }
            else
              { source with last_checked := some now, content_hash := some newContentHash }
          ⟨inserted.1, source2, ⟨contentChanged, inserted.2, "success"⟩, true⟩

/-- No two `pending` suggestion rows share a `(state_id, suggested_name)`
pair. -/
def PendingNoDup (db : List SuggestionRow) : Prop :=
  ∀ stateId name, countPendingMatches db stateId name ≤ 1

/-! ## RuleUpdates.tsx: admin review workflow -/

/-- A `compliance_rules` row (schema: `version INTEGER NOT NULL DEFAULT 1`,
`citation` and `source_url` nullable; `id` is the primary key). -/
structure ComplianceRule where
  id : String
  state_id : String
  name : String
  description : String
  category : String
  severity : String
  citation : Option String
  source_url : Option String
  validation_prompt : String
  is_active : Bool
  version : Int
deriving Repr, DecidableEq

/-- A `rule_change_suggestions` row as handled by `RuleUpdates.tsx`
(interface `RuleSuggestion`). -/
structure RuleSuggestion where
  id : String
  state_id : String
  source_id : Option String
  existing_rule_id : Option String
  change_type : String
  suggested_name : String
  suggested_description : String
  suggested_category : Option String
  suggested_severity : Option String
  suggested_validation_prompt : Option String
  suggested_citation : Option String
  suggested_source_url : Option String
  ai_reasoning : Option String
  source_excerpt : Option String
  status : String
  reviewed_by : Option String
  reviewed_at : Option String
  review_notes : Option String
  created_at : String
deriving Repr, DecidableEq

/-- A `rule_audit_log` row; the `previous_version` / `new_version` JSONB
snapshots hold full rule rows. -/
structure RuleAuditLogEntry where
  rule_id : Option String
  state_id : Option String
  action : String
  changed_by : Option String
  change_reason : String
  previous_version : Option ComplianceRule
  new_version : Option ComplianceRule
  suggestion_id : Option String
deriving Repr, DecidableEq

/-- The tables touched by the admin review workflow. -/
structure AdminDb where
  rules : List ComplianceRule
  suggestions : List RuleSuggestion
  audit_log : List RuleAuditLogEntry
deriving Repr, DecidableEq

/-- JS `a || b` for a nullable string `a` and non-null default `b`:
`null`, `undefined` and `""` are falsy. -/
def jsOrStr (a : Option String) (b : String) : String :=
  match a with
  | some s => if s = "" then b else s
  | none => b

/-- JS `a || b` where both sides are nullable strings. -/
def jsOrOptStr (a b : Option String) : Option String :=
  match a with
  | some s => if s = "" then b else some s
  | none => b

/-- JS `v || d` on a number: only `0` is falsy among integers. -/
def jsOrInt (v d : Int) : Int :=
  if v = 0 then d else v

/-- The `update` branch of `handleApprove` (`RuleUpdates.tsx` lines 533-566):
given the current rule row read by `.single()`, the `.update({...})` payload
applied to it. `name` and `description` are always overwritten; `category`,
`severity`, `citation` and `validation_prompt` fall back to the current
values via JS `||`; `version` becomes `(currentRule?.version || 1) + 1`.
`source_url` and `is_active` are not part of the payload. -/
def applyUpdateApproval (currentRule : ComplianceRule) (s : RuleSuggestion) :
    ComplianceRule :=
  { currentRule with
    name := s.suggested_name
    description := s.suggested_description
    category := jsOrStr s.suggested_category currentRule.category
    severity := jsOrStr s.suggested_severity currentRule.severity
    citation := jsOrOptStr s.suggested_citation currentRule.citation
    validation_prompt := jsOrStr s.suggested_validation_prompt currentRule.validation_prompt
    version := jsOrInt currentRule.version 1 + 1 }

/-- Model of `handleReject` (`RuleUpdates.tsx` lines 617-642): a single update on
`rule_change_suggestions` filtered by `.eq('id', suggestion.id)`, setting
`status`, `reviewed_by`, `reviewed_at` and `review_notes`; no other table is
touched. -/
def handleReject (db : AdminDb) (userId : Option String) (now reviewNotes : String)
    (suggestionId : String) : AdminDb :=
  { db with
    suggestions := db.suggestions.map (fun s =>
      if s.id = suggestionId then
        { s with status := "rejected", reviewed_by := userId,
                 reviewed_at := some now, review_notes := some reviewNotes }
      else s) }

/-! ## perplexity-regulatory-search: verified-URL filter and storage -/

/-- A parsed suggestion in the Perplexity pipeline (interface
`RuleSuggestion` of `perplexity-regulatory-search/index.ts`). -/
structure PRuleSuggestion where
  changeType : String
  existingRuleId : Option String
  suggestedName : String
  suggestedDescription : String
  suggestedCategory : Option String
  suggestedCitation : Option String
  suggestedSourceUrl : Option String
  suggestedSeverity : Option String
  suggestedValidationPrompt : Option String
  reasoning : Option String
  sourceExcerpt : Option String
deriving Repr, DecidableEq

/-- A `rule_change_suggestions` row as inserted by the Perplexity pipeline
(lines 279-293). -/
structure PSuggestionRow where
  state_id : String
  change_type : String
  existing_rule_id : Option String
  suggested_name : String
  suggested_description : String
  suggested_category : Option String
  suggested_citation : Option String
  suggested_source_url : Option String
  suggested_severity : Option String
  suggested_validation_prompt : Option String
  ai_reasoning : Option String
  source_excerpt : Option String
  status : String
deriving Repr, DecidableEq

/-- JS `x || null` for a nullable string. -/
def jsOrNull (a : Option String) : Option String :=
  match a with
  | some s => if s = "" then none else some s
  | none => none

/-- The inner check of the `validatedSuggestions` filter:
`verifiedUrls.some(url => s.suggestedSourceUrl?.includes(url) ||
url.includes(s.suggestedSourceUrl || ''))` for a suggestion known to carry a
non-empty URL `u`. -/
def matchesVerified (verifiedUrls : List String) (u : String) : Bool :=
  verifiedUrls.any (fun url => strIncludes u url || strIncludes url u)

/-- Model of `validatedSuggestions` (`perplexity-regulatory-search/index.ts` lines
256-269): keep suggestions that either carry a verified URL or carry no
(truthy) URL at all. -/
def validatedSuggestions (verifiedUrls : List String)
    (suggestions : List PRuleSuggestion) : List PRuleSuggestion :=
  suggestions.filter (fun s =>
    match s.suggestedSourceUrl with
    | some u => if u = "" then true else matchesVerified verifiedUrls u
    | none => true)

/-- The `dbSuggestions` mapping (lines 279-293). -/
def perplexityDbRow (stateId : String) (s : PRuleSuggestion) : PSuggestionRow :=
  { state_id := stateId
    change_type := s.changeType
    existing_rule_id := jsOrNull s.existingRuleId
    suggested_name := s.suggestedName
    suggested_description := s.suggestedDescription
    suggested_category := jsOrNull s.suggestedCategory
    suggested_citation := jsOrNull s.suggestedCitation
    suggested_source_url := jsOrNull s.suggestedSourceUrl
    suggested_severity := jsOrNull s.suggestedSeverity
    suggested_validation_prompt := jsOrNull s.suggestedValidationPrompt
    ai_reasoning := jsOrNull s.reasoning
    source_excerpt := jsOrNull s.sourceExcerpt
    status := "pending" }

/-- The rows the Perplexity pipeline actually inserts: the validated
suggestions mapped through `dbSuggestions` (lines 274-297). -/
def perplexityStoredRows (stateId : String) (verifiedUrls : List String)
    (suggestions : List PRuleSuggestion) : List PSuggestionRow :=
  (validatedSuggestions verifiedUrls suggestions).map (perplexityDbRow stateId)

/-- Does a stored row carry a URL matched against the verified list? -/
def carriesVerifiedUrl (verifiedUrls : List String) (row : PSuggestionRow) : Bool :=
  match row.suggested_source_url with
  | some u => matchesVerified verifiedUrls u
  | none => false

/-! ## groq-regulatory-check: validateSuggestions -/

/-- A `suggestedChanges` element in the Groq pipeline (interface
`SuggestedChange` of `groq-regulatory-check/index.ts`). -/
structure GSuggestedChange where
  changeType : String
  existingRuleId : Option String
  suggestedName : String
  suggestedDescription : String
  suggestedCategory : String
  suggestedCitation : String
  suggestedSourceUrl : Option String
  suggestedSeverity : String
  suggestedValidationPrompt : String
  reasoning : String
  sourceExcerpt : String
deriving Repr, DecidableEq

/-- Model of `STATE_REGULATORY_URLS[abbrev]?.base` (lines 52-56). -/
def stateRegulatoryBase (ab : String) : Option String :=
  if ab = "MT" then some "https://rules.mt.gov/"
  else if ab = "CO" then some "https://med.colorado.gov/rules"
  else if ab = "CA" then some "https://cannabis.ca.gov/cannabis-laws/dcc-regulations/"
  else none

/-- Result record of `validateSuggestions` (lines 134-187). -/
structure GValidation where
  valid : List GSuggestedChange
  rejected : Nat
  reasons : List String
deriving Repr, DecidableEq

/-- One iteration of the `validateSuggestions` loop. `isValidUrl` models
`new URL(sourceUrl)` succeeding. Returns the kept suggestion (with the
possibly substituted URL) or the rejection reason. -/
def gValidateStep (isValidUrl : String → Bool) (stateBaseUrl : Option String)
    (fallbackSources : List String) (s : GSuggestedChange) :
    Except String GSuggestedChange :=
  -- `if (!sourceUrl || sourceUrl.trim() === '' || sourceUrl === 'null')`
  let step1 : Option String :=
    match s.suggestedSourceUrl with
    | some u =>
      if u = "" ∨ strTrim u = "" ∨ u = "null" then
        if fallbackSources ≠ [] then
          some ((fallbackSources.find? (fun f => strIncludes f ".gov")).getD
            (fallbackSources.headD ""))
        else stateBaseUrl
      else some u
    | none =>
      if fallbackSources ≠ [] then
        some ((fallbackSources.find? (fun f => strIncludes f ".gov")).getD
          (fallbackSources.headD ""))
      else stateBaseUrl
  match step1 with
  | none => .error ("Rejected \"" ++ s.suggestedName ++ "\": No valid source URL")
  | some url =>
    if isValidUrl url then .ok { s with suggestedSourceUrl := some url }
    else
      match stateBaseUrl with
      | some b => .ok { s with suggestedSourceUrl := some b }
      | none => .error ("Rejected \"" ++ s.suggestedName ++ "\": Invalid URL format")

/-- Model of `validateSuggestions` (`groq-regulatory-check/index.ts` lines 134-187):
every suggestion either gets a present, well-formed source URL (its own, a
fallback source, or the state base URL) or is rejected; the verified source
list is used only as a fallback pool, never as a membership check. -/
def gValidateSuggestions (isValidUrl : String → Bool) (stateAbbrev : String)
    (fallbackSources : List String) : List GSuggestedChange → GValidation
  | [] => ⟨[], 0, []⟩
  | s :: rest =>
    let r := gValidateSuggestions isValidUrl stateAbbrev fallbackSources rest
    match gValidateStep isValidUrl (stateRegulatoryBase stateAbbrev) fallbackSources s with
    | .ok kept => ⟨kept :: r.valid, r.rejected, r.reasons⟩
    | .error reason => ⟨r.valid, r.rejected + 1, reason :: r.reasons⟩

/-! ## citationResolver.ts

Each JS regex of the resolver is embedded as a matcher over `List Char` that
is attempted at a position (`match...At`) and scanned over all start
positions (`scanFor`), reproducing the regex's leftmost-match search. -/

/-- Model of `CitationResult` of `citationResolver.ts`. -/
structure CitationResult where
  url : Option String
  displayText : String
  isDirectLink : Bool
deriving Repr, DecidableEq

/-- Drop leading whitespace (`\s*`). -/
def dropSpaces (cs : List Char) : List Char :=
  cs.dropWhile (fun c => c.isWhitespace)

/-- Split a greedy run of leading decimal digits (`\d+` / `(\d+)?`). -/
def takeDigits (cs : List Char) : List Char × List Char :=
  (cs.takeWhile (fun c => c.isDigit), cs.dropWhile (fun c => c.isDigit))

/-- Consume a case-insensitive literal (the pattern is given lowercase). -/
def parseCI : List Char → List Char → Option (List Char)
  | [], cs => some cs
  | _ :: _, [] => none
  | p :: ps, c :: cs => if c.toLower == p then parseCI ps cs else none

/-- Consume an optional literal dot (`\.?`). -/
def parseOptDot : List Char → List Char
  | '.' :: cs => cs
  | cs => cs

/-- Consume an optional literal section sign (`§?`). -/
def parseOptSect : List Char → List Char
  | '§' :: cs => cs
  | cs => cs

/-- Try a matcher at each start position, leftmost first (regex search). -/
def scanFor {α : Type} (f : List Char → Option α) : List Char → Option α
  | [] => f []
  | cs@(_ :: t) =>
    match f cs with
    | some r => some r
    | none => scanFor f t

/-- Parse `(\d+)X(\d+)X(\d+)` for a literal separator `X`. -/
def parseTripleSep (sep : Char) (cs : List Char) :
    Option (String × String × String) :=
  let (a, r1) := takeDigits cs
  if a.isEmpty then none else
  match r1 with
  | c1 :: r2 =>
    if c1 == sep then
      let (b, r3) := takeDigits r2
      if b.isEmpty then none else
      match r3 with
      | c2 :: r4 =>
        if c2 == sep then
          let (c, _) := takeDigits r4
          if c.isEmpty then none else some (String.mk a, String.mk b, String.mk c)
        else none
      | [] => none
    else none
  | [] => none

/-- Model of `/ARM\s*(\d+)\.(\d+)\.(\d+)/i` attempted at a position. -/
def matchArmAt (cs : List Char) : Option (String × String × String) :=
  match parseCI ['a', 'r', 'm'] cs with
  | some r => parseTripleSep '.' (dropSpaces r)
  | none => none

/-- Model of `/Mont\.?\s*Admin\.?\s*r\.?\s*(\d+)\.(\d+)\.(\d+)/i` at a position. -/
def matchMontAdminAt (cs : List Char) : Option (String × String × String) :=
  match parseCI ['m', 'o', 'n', 't'] cs with
  | none => none
  | some r1 =>
    match parseCI ['a', 'd', 'm', 'i', 'n'] (dropSpaces (parseOptDot r1)) with
    | none => none
    | some r2 =>
      match parseCI ['r'] (dropSpaces (parseOptDot r2)) with
      | none => none
      | some r3 => parseTripleSep '.' (dropSpaces (parseOptDot r3))

/-- Model of `/MCA\s*(\d+)-(\d+)-(\d+)/i` at a position. -/
def matchMcaAt (cs : List Char) : Option (String × String × String) :=
  match parseCI ['m', 'c', 'a'] cs with
  | some r => parseTripleSep '-' (dropSpaces r)
  | none => none

/-- Model of `/(\d+)?\s*CCR\s*(\d+)-(\d+)/i` at a position; returns the `series` and
`rule` groups (the optional leading book number is not used). -/
def matchCcrAt (cs : List Char) : Option (String × String) :=
  let (_, r0) := takeDigits cs
  match parseCI ['c', 'c', 'r'] (dropSpaces r0) with
  | none => none
  | some r1 =>
    let (series, r2) := takeDigits (dropSpaces r1)
    if series.isEmpty then none else
    match r2 with
    | '-' :: r3 =>
      let (ru, _) := takeDigits r3
      if ru.isEmpty then none else some (String.mk series, String.mk ru)
    | _ => none

/-- Model of `/(?:C\.?R\.?S\.?|CRS)\s*§?\s*(\d+)-(\d+)-(\d+)/i` at a position (the
first alternative subsumes the second). -/
def matchCrsAt (cs : List Char) : Option (String × String × String) :=
  match parseCI ['c'] cs with
  | none => none
  | some r1 =>
    match parseCI ['r'] (parseOptDot r1) with
    | none => none
    | some r2 =>
      match parseCI ['s'] (parseOptDot r2) with
      | none => none
      | some r3 =>
        parseTripleSep '-'
          (dropSpaces (parseOptSect (dropSpaces (parseOptDot r3))))

/-- Tail `\s*(\d+),?\s*§?\s*(\d+)` of the California title regex. -/
def matchCalRegTail (cs : List Char) : Option (String × String) :=
  let (t, r1) := takeDigits (dropSpaces cs)
  if t.isEmpty then none else
  let r2 := match r1 with
    | ',' :: tl => tl
    | l => l
  let (sec, _) := takeDigits (dropSpaces (parseOptSect (dropSpaces r2)))
  if sec.isEmpty then none else some (String.mk t, String.mk sec)

/-- Model of `/(?:Cal\.?\s*Code\s*Regs\.?,?\s*)?(?:tit\.?|title)\s*(\d+),?\s*§?\s*(\d+)/i`
at a position. -/
def matchCalRegAt (cs : List Char) : Option (String × String) :=
  let afterPfx : List Char :=
    match parseCI ['c', 'a', 'l'] cs with
    | none => cs
    | some r1 =>
      match parseCI ['c', 'o', 'd', 'e'] (dropSpaces (parseOptDot r1)) with
      | none => cs
      | some r2 =>
        match parseCI ['r', 'e', 'g', 's'] (dropSpaces r2) with
        | none => cs
        | some r3 =>
          let r4 := parseOptDot r3
          let r5 := match r4 with
            | ',' :: tl => tl
            | l => l
          dropSpaces r5
  match parseCI ['t', 'i', 't', 'l', 'e'] afterPfx with
  | some r => matchCalRegTail r
  | none =>
    match parseCI ['t', 'i', 't'] afterPfx with
    | some r => matchCalRegTail (parseOptDot r)
    | none => none

/-- Head alternation `(?:B\.?&?P\.?|Bus\.?\s*&?\s*Prof\.?)` of the BPC
regex, at a position. -/
def matchBpcHead (cs : List Char) : Option (List Char) :=
  let altBus : Option (List Char) :=
    match parseCI ['b', 'u', 's'] cs with
    | none => none
    | some r1 =>
      let r2 := dropSpaces (parseOptDot r1)
      let r3 := match r2 with
        | '&' :: tl => tl
        | l => l
      match parseCI ['p', 'r', 'o', 'f'] (dropSpaces r3) with
      | none => none
      | some r4 => some (parseOptDot r4)
  match parseCI ['b'] cs with
  | none => none
  | some r1 =>
    let r2 := parseOptDot r1
    let r3 := match r2 with
      | '&' :: tl => tl
      | l => l
    match parseCI ['p'] r3 with
    | some r4 => some (parseOptDot r4)
    | none => altBus

/-- Model of `/(?:B\.?&?P\.?|Bus\.?\s*&?\s*Prof\.?)\s*Code\s*§?\s*(\d+)/i` at a
position; returns the section group. -/
def matchBpcAt (cs : List Char) : Option String :=
  match matchBpcHead cs with
  | none => none
  | some r1 =>
    match parseCI ['c', 'o', 'd', 'e'] (dropSpaces r1) with
    | none => none
    | some r2 =>
      let (sec, _) := takeDigits (dropSpaces (parseOptSect (dropSpaces r2)))
      if sec.isEmpty then none else some (String.mk sec)

/-- Model of `/(\d+)\s*C\.?F\.?R\.?\s*§?\s*(\d+)\.(\d+)/i` at a position. -/
def matchCfrAt (cs : List Char) : Option (String × String × String) :=
  let (t, r0) := takeDigits cs
  if t.isEmpty then none else
  match parseCI ['c'] (dropSpaces r0) with
  | none => none
  | some r1 =>
    match parseCI ['f'] (parseOptDot r1) with
    | none => none
    | some r2 =>
      match parseCI ['r'] (parseOptDot r2) with
      | none => none
      | some r3 =>
        let r4 := dropSpaces (parseOptSect (dropSpaces (parseOptDot r3)))
        let (part, r5) := takeDigits r4
        if part.isEmpty then none else
        match r5 with
        | '.' :: r6 =>
          let (sec, _) := takeDigits r6
          if sec.isEmpty then none
          else some (String.mk t, String.mk part, String.mk sec)
        | _ => none

/-- Model of `/^https?:\/\//i` (anchored at the start of the string). -/
def looksLikeUrl (s : String) : Bool :=
  (parseCI ['h', 't', 't', 'p', ':', '/', '/'] s.data).isSome ||
    (parseCI ['h', 't', 't', 'p', 's', ':', '/', '/'] s.data).isSome

/-- Model of `String.padStart(n, '0')`. -/
def padStartZero (s : String) (n : Nat) : String :=
  if n ≤ s.length then s else String.mk (List.replicate (n - s.length) '0') ++ s

/-- One hexadecimal digit, uppercase (as produced by `encodeURIComponent`). -/
def hexDigit (n : Nat) : Char :=
  if n < 10 then Char.ofNat (48 + n) else Char.ofNat (65 + n - 10)

/-- Percent-encode one UTF-8 byte. -/
def percentEncodeByte (b : UInt8) : String :=
  "%" ++ String.mk [hexDigit (b.toNat / 16), hexDigit (b.toNat % 16)]

/-- JS `encodeURIComponent`: unreserved characters pass; all other
characters are percent-encoded byte by byte in UTF-8. -/
def encodeURIComponent (s : String) : String :=
  s.data.foldl (fun acc c =>
    if c.isAlphanum ∨ c ∈ ['-', '_', '.', '!', '~', '*', Char.ofNat 39, '(', ')'] then
      acc ++ String.mk [c]
    else
      acc ++ String.join (((String.mk [c]).toUTF8.toList.map percentEncodeByte))) ""

/-- Model of `resolveMontanaCitation` (`citationResolver.ts` lines 20-59). -/
def resolveMontanaCitation (citation : String) : Option CitationResult :=
  match scanFor matchArmAt citation.data with
  | some (t, ch, ru) =>
    some { url := some ("https://rules.mt.gov/gateway/RuleNo.asp?RN=" ++ t ++ "%2E"
              ++ ch ++ "%2E" ++ ru)
           displayText := citation, isDirectLink := true }
  | none =>
  match scanFor matchMontAdminAt citation.data with
  | some (t, ch, ru) =>
    some { url := some ("https://rules.mt.gov/gateway/RuleNo.asp?RN=" ++ t ++ "%2E"
              ++ ch ++ "%2E" ++ ru)
           displayText := citation, isDirectLink := true }
  | none =>
  match scanFor matchMcaAt citation.data with
  | some (t, ch, sec) =>
    some { url := some ("https://leg.mt.gov/bills/mca/title_" ++ padStartZero t 4
              ++ "/chapter_" ++ padStartZero ch 3 ++ "/part_0/section_"
              ++ padStartZero sec 3 ++ "/0" ++ padStartZero t 2 ++ padStartZero ch 2
              ++ "0" ++ padStartZero sec 2 ++ ".html")
           displayText := citation, isDirectLink := true }
  | none =>
    some { url := some ("https://rules.mt.gov/gateway/Search.asp?txtSearchString="
              ++ encodeURIComponent citation)
           displayText := citation, isDirectLink := false }

/-- Model of `resolveColoradoCitation` (`citationResolver.ts` lines 62-92). -/
def resolveColoradoCitation (citation : String) : Option CitationResult :=
  match scanFor matchCcrAt citation.data with
  | some (series, _) =>
    some { url := some ("https://www.sos.state.co.us/CCR/DisplayRule.do?action=ruleinfo&ruleId="
              ++ series ++ "&deptID=16")
           displayText := citation, isDirectLink := false }
  | none =>
  match scanFor matchCrsAt citation.data with
  | some _ =>
    some { url := some "https://leg.colorado.gov/colorado-revised-statutes"
           displayText := citation, isDirectLink := false }
  | none =>
    some { url := some "https://med.colorado.gov/rules"
           displayText := citation, isDirectLink := false }

/-- Model of `resolveCaliforniaCitation` (`citationResolver.ts` lines 95-124). -/
def resolveCaliforniaCitation (citation : String) : Option CitationResult :=
  match scanFor matchCalRegAt citation.data with
  | some (_, sec) =>
    some { url := some ("https://govt.westlaw.com/calregs/Document/I" ++ sec
              ++ "?viewType=FullText&originationContext=documenttoc&transitionType=CategoryPageItem&contextData=(sc.Default)")
           displayText := citation, isDirectLink := false }
  | none =>
  match scanFor matchBpcAt citation.data with
  | some sec =>
    some { url := some ("https://leginfo.legislature.ca.gov/faces/codes_displaySection.xhtml?lawCode=BPC&sectionNum="
              ++ sec)
           displayText := citation, isDirectLink := true }
  | none =>
    some { url := some "https://cannabis.ca.gov/cannabis-laws/dcc-regulations/"
           displayText := citation, isDirectLink := false }

/-- The `stateResolvers` lookup table (lines 13-17). -/
def stateResolvers (ab : String) : Option (String → Option CitationResult) :=
  if ab = "MT" then some resolveMontanaCitation
  else if ab = "CO" then some resolveColoradoCitation
  else if ab = "CA" then some resolveCaliforniaCitation
  else none

/-- Model of `!citation || citation.trim() === '' || citation === 'N/A'` (line 148). -/
def citationIsBlank (citation : Option String) : Bool :=
  match citation with
  | none => true
  | some c => c == "" || strTrim c == "" || c == "N/A"

/-- Model of `resolveCitation` without a provided URL (`citationResolver.ts` lines
147-190): blank-citation early return, state-specific resolver, generic CFR
pattern, URL passthrough, bare-text fallback. -/
def resolveCitationNoUrl (citation : Option String) (stateAbbreviation : String) :
    CitationResult :=
  if citationIsBlank citation then
    { url := none, displayText := jsOrStr citation "N/A", isDirectLink := false }
  else
    let c := citation.getD ""
    let fromState : Option CitationResult :=
      match stateResolvers (strToUpper stateAbbreviation) with
      | some resolver => resolver c
      | none => none
    match fromState with
    | some result => result
    | none =>
      match scanFor matchCfrAt c.data with
      | some (t, part, sec) =>
        { url := some ("https://www.law.cornell.edu/cfr/text/" ++ t ++ "/" ++ part
            ++ "." ++ sec)
          displayText := c, isDirectLink := true }
      | none =>
        if looksLikeUrl c then
          { url := some c, displayText := "View Source", isDirectLink := true }
        else
          { url := none, displayText := c, isDirectLink := false }

/-- Model of `resolveCitation` (`citationResolver.ts` lines 133-191). A truthy
`providedUrl` (non-null, non-empty) short-circuits every resolver. -/
def resolveCitation (citation : Option String) (stateAbbreviation : String)
    (providedUrl : Option String) : CitationResult :=
  match providedUrl with
  | some p =>
    if p ≠ "" then
      { url := some p, displayText := jsOrStr citation "View Source", isDirectLink := true }
    else resolveCitationNoUrl citation stateAbbreviation
  | none => resolveCitationNoUrl citation stateAbbreviation

/-! ## Concrete sample data used by witness theorems -/

/-- A regulatory source whose stored hash will match the sample fetch. -/
def sampleSource : RegulatorySource :=
  { id := "src1", state_id := "st1", source_name := "MT Rules"
    source_url := "https://rules.mt.gov/", content_hash := some "abc"
    last_checked := none, last_content_change := none }

/-- A compliance rule at version 1 (the schema default). -/
def sampleRule : ComplianceRule :=
  { id := "rule1", state_id := "st1", name := "THC Symbol"
    description := "Label must show the THC symbol", category := "Symbols & Icons"
    severity := "error", citation := some "1 CCR 212-3", source_url := none
    validation_prompt := "Check for the THC symbol", is_active := true, version := 1 }

/-- An `update` suggestion whose optional suggested fields are all null. -/
def sampleUpdateSuggestion : RuleSuggestion :=
  { id := "sugg1", state_id := "st1", source_id := some "src1"
    existing_rule_id := some "rule1", change_type := "update"
    suggested_name := "THC Symbol Size", suggested_description := "Symbol at least 0.5 inch"
    suggested_category := none, suggested_severity := none
    suggested_validation_prompt := none, suggested_citation := none
    suggested_source_url := none, ai_reasoning := some "regulation changed"
    source_excerpt := none, status := "pending", reviewed_by := none
    reviewed_at := none, review_notes := none, created_at := "2026-01-01" }

/-- An admin database holding one rule, one pending suggestion, no audit
entries. -/
def sampleAdminDb : AdminDb :=
  { rules := [sampleRule], suggestions := [sampleUpdateSuggestion], audit_log := [] }

/-- A Perplexity suggestion that carries no source URL. -/
def samplePSuggestionNoUrl : PRuleSuggestion :=
  { changeType := "add", existingRuleId := none, suggestedName := "THC Symbol"
    suggestedDescription := "d", suggestedCategory := none, suggestedCitation := none
    suggestedSourceUrl := none, suggestedSeverity := none
    suggestedValidationPrompt := none, reasoning := none, sourceExcerpt := none }

/-- A Perplexity suggestion whose URL matches the sample verified list. -/
def samplePSuggestionGoodUrl : PRuleSuggestion :=
  { changeType := "add", existingRuleId := none, suggestedName := "Warning Text"
    suggestedDescription := "d", suggestedCategory := none, suggestedCitation := none
    suggestedSourceUrl := some "https://rules.mt.gov/gateway/RuleNo.asp"
    suggestedSeverity := none, suggestedValidationPrompt := none
    reasoning := none, sourceExcerpt := none }

/-- A Groq suggested change carrying a well-formed URL. -/
def sampleGSuggestion : GSuggestedChange :=
  { changeType := "new", existingRuleId := none, suggestedName := "Net Weight"
    suggestedDescription := "d", suggestedCategory := "General"
    suggestedCitation := "ARM 37.107.402"
    suggestedSourceUrl := some "https://made-up.example.com/fake"
    suggestedSeverity := "warning", suggestedValidationPrompt := "p"
    reasoning := "r", sourceExcerpt := "e" }

/-! ## Theorems -/

/-- C1: run-compliance-check computes `pass_count`, `warning_count` and
`fail_count` as the number of results whose status is respectively `pass`,
`warning` and `fail`, and `overall_status` as `fail` if any failure,
else `warning` if any warning, else `pass`; for three results with one of
each status the summary is `fail` with counts 1/1/1. -/
theorem c1_summary_counts_and_overall (results : List ComplianceResult) :
    (computeSummary results).passCount = results.countP (fun r => r.status == "pass") ∧
    (computeSummary results).warningCount = results.countP (fun r => r.status == "warning") ∧
    (computeSummary results).failCount = results.countP (fun r => r.status == "fail") ∧
    (computeSummary results).overallStatus =
      (if (computeSummary results).failCount > 0 then "fail"
       else if (computeSummary results).warningCount > 0 then "warning" else "pass") ∧
    computeSummary
        [{ ruleId := "r1", status := "pass", foundValue := "a", expectedValue := "b",
           explanation := "e", panelFound := "front" },
         { ruleId := "r2", status := "warning", foundValue := "a", expectedValue := "b",
           explanation := "e", panelFound := "back" },
         { ruleId := "r3", status := "fail", foundValue := "a", expectedValue := "b",
           explanation := "e", panelFound := "front" }] =
      { passCount := 1, warningCount := 1, failCount := 1, overallStatus := "fail" } := by
  refine ⟨?_, ?_, ?_, rfl, by decide⟩ <;>
    simp [computeSummary, passCount, warningCount, failCount, List.countP_eq_length_filter]

/-- C3 counterexample: a result whose status lies outside
pass/warning/fail is counted by none of the three counters, so the three
counts need not sum to the number of results. -/
theorem c3_counts_sum_cex :
    ¬ (passCount [{ ruleId := "r1", status := "not_applicable", foundValue := "a",
                    expectedValue := "b", explanation := "e", panelFound := "front" }]
        + warningCount [{ ruleId := "r1", status := "not_applicable", foundValue := "a",
                          expectedValue := "b", explanation := "e", panelFound := "front" }]
        + failCount [{ ruleId := "r1", status := "not_applicable", foundValue := "a",
                       expectedValue := "b", explanation := "e", panelFound := "front" }]
        = [({ ruleId := "r1", status := "not_applicable", foundValue := "a",
              expectedValue := "b", explanation := "e", panelFound := "front" }
            : ComplianceResult)].length) := by
  decide

/-- C3 (amended): whenever every status returned by the scoring model lies
in pass/warning/fail — the reply contract of the scoring prompt — the three
counters computed by run-compliance-check sum to the number of results. -/
theorem c3_counts_sum_amended (results : List ComplianceResult)
    (h : ∀ r ∈ results, r.status = "pass" ∨ r.status = "warning" ∨ r.status = "fail") :
    passCount results + warningCount results + failCount results = results.length := by
  induction results with
  | nil => rfl
  | cons a t ih =>
    have ha := h a (List.mem_cons_self a t)
    have ih2 := ih (fun r hr => h r (List.mem_cons_of_mem a hr))
    simp only [passCount, warningCount, failCount, List.filter_cons, List.length_cons] at *
    rcases ha with h1 | h1 | h1 <;> simp [h1] <;> omega

/-- C3 witness: the amended theorem applied to one result of each status. -/
theorem c3_counts_sum_amended_witness :
    passCount
        [{ ruleId := "r1", status := "pass", foundValue := "a", expectedValue := "b",
           explanation := "e", panelFound := "front" },
         { ruleId := "r2", status := "warning", foundValue := "a", expectedValue := "b",
           explanation := "e", panelFound := "back" },
         { ruleId := "r3", status := "fail", foundValue := "a", expectedValue := "b",
           explanation := "e", panelFound := "front" }]
      + warningCount
        [{ ruleId := "r1", status := "pass", foundValue := "a", expectedValue := "b",
           explanation := "e", panelFound := "front" },
         { ruleId := "r2", status := "warning", foundValue := "a", expectedValue := "b",
           explanation := "e", panelFound := "back" },
         { ruleId := "r3", status := "fail", foundValue := "a", expectedValue := "b",
           explanation := "e", panelFound := "front" }]
      + failCount
        [{ ruleId := "r1", status := "pass", foundValue := "a", expectedValue := "b",
           explanation := "e", panelFound := "front" },
         { ruleId := "r2", status := "warning", foundValue := "a", expectedValue := "b",
           explanation := "e", panelFound := "back" },
         { ruleId := "r3", status := "fail", foundValue := "a", expectedValue := "b",
           explanation := "e", panelFound := "front" }]
      = 3 :=
  c3_counts_sum_amended _ (by decide)

/-- C2: when the fetched content hashes to the stored `content_hash` and the
caller did not force the check, check-regulations never invokes the Diff
Analyzer, creates no suggestion, reports `no_changes` with
`suggestions_created = 0`, and updates only `last_checked` on the source
(`content_hash` and `last_content_change` are unchanged). -/
theorem c2_unchanged_source_short_circuit (hashFn : String → String)
    (jsonParse : String → Option (List AISuggestion)) (now : String)
    (source : RegulatorySource) (content : String) (ai : Except String String)
    (existingRules : List ExistingRule) (db : List SuggestionRow)
    (hhash : source.content_hash = some (hashFn content)) :
    processSource hashFn jsonParse now false source (.ok content) ai existingRules db
      = ⟨db, { source with last_checked := some now }, ⟨false, 0, "no_changes"⟩, false⟩ := by
  unfold processSource
  simp [hhash]

/-- C2 witness: the short-circuit at a concrete matching source. -/
theorem c2_unchanged_source_short_circuit_witness :
    processSource (fun _ => "abc") (fun _ => some []) "2026-01-02" false sampleSource
        (.ok "page text") (.ok "[]") [] []
      = ⟨[], { sampleSource with last_checked := some "2026-01-02" },
          ⟨false, 0, "no_changes"⟩, false⟩ :=
  c2_unchanged_source_short_circuit (fun _ => "abc") (fun _ => some []) "2026-01-02"
    sampleSource "page text" (.ok "[]") [] [] rfl

/-- Appending one row adds its key-match indicator to a pending count. -/
theorem countPendingMatches_append (db : List SuggestionRow) (row : SuggestionRow)
    (stateId name : String) :
    countPendingMatches (db ++ [row]) stateId name
      = countPendingMatches db stateId name
        + (if row.state_id == stateId && row.suggested_name == name
              && row.status == "pending" then 1 else 0) := by
  simp [countPendingMatches, List.countP_append, List.countP_cons]

/-- The row built by `suggestionRowOf` is pending and keyed by the source's
state and the suggestion's name. -/
theorem countPendingMatches_insert (source : RegulatorySource) (rid : Option String)
    (s : AISuggestion) (db : List SuggestionRow) (stateId name : String) :
    countPendingMatches (db ++ [suggestionRowOf source rid s]) stateId name
      = countPendingMatches db stateId name
        + (if source.state_id = stateId ∧ s.suggested_name = name then 1 else 0) := by
  rw [countPendingMatches_append]
  congr 1
  simp [suggestionRowOf]

/-- Invariant of the step-5 insertion loop: it keeps pending suggestions
duplicate-free and never grows a pair that already has its pending row. -/
theorem insertSuggestions_pending_invariant (source : RegulatorySource)
    (existingRules : List ExistingRule) :
    ∀ (l : List AISuggestion) (db : List SuggestionRow) (c : Nat), PendingNoDup db →
      PendingNoDup (insertSuggestions source existingRules l db c).1 ∧
      (∀ stateId name, countPendingMatches db stateId name = 1 →
        countPendingMatches (insertSuggestions source existingRules l db c).1
          stateId name = 1)
  | [], db, c, hdb => ⟨hdb, fun _ _ h => h⟩
  | s :: rest, db, c, hdb => by
    by_cases hskip : countPendingMatches db source.state_id s.suggested_name = 1
    · simp only [insertSuggestions, if_pos hskip]
      exact insertSuggestions_pending_invariant source existingRules rest db c hdb
    · simp only [insertSuggestions, if_neg hskip]
      have hdb2 : PendingNoDup
          (db ++ [suggestionRowOf source (lookupExistingRuleId existingRules s) s]) := by
        intro sid nm
        rw [countPendingMatches_insert]
        by_cases hkey : source.state_id = sid ∧ s.suggested_name = nm
        · rw [if_pos hkey]
          obtain ⟨h1, h2⟩ := hkey
          subst h1
          subst h2
          have hle := hdb source.state_id s.suggested_name
          omega
        · rw [if_neg hkey]
          simpa using hdb sid nm
      have hpres : ∀ sid nm, countPendingMatches db sid nm = 1 →
          countPendingMatches
            (db ++ [suggestionRowOf source (lookupExistingRuleId existingRules s) s])
            sid nm = 1 := by
        intro sid nm h1
        rw [countPendingMatches_insert]
        by_cases hkey : source.state_id = sid ∧ s.suggested_name = nm
        · exfalso
          obtain ⟨ha, hb⟩ := hkey
          subst ha
          subst hb
          exact hskip h1
        · rw [if_neg hkey]
          omega
      obtain ⟨hA, hB⟩ := insertSuggestions_pending_invariant source existingRules rest
        (db ++ [suggestionRowOf source (lookupExistingRuleId existingRules s) s])
        (c + 1) hdb2
      exact ⟨hA, fun sid nm h1 => hB sid nm (hpres sid nm h1)⟩

/-- The suggestion table produced by one pipeline step is either untouched
or is the result of running the insertion loop on some parsed list. -/
theorem processSource_db_shape (hashFn : String → String)
    (jsonParse : String → Option (List AISuggestion)) (now : String) (force : Bool)
    (source : RegulatorySource) (scrape ai : Except String String)
    (existingRules : List ExistingRule) (db : List SuggestionRow) :
    (processSource hashFn jsonParse now force source scrape ai existingRules db).db = db
      ∨ ∃ suggestions,
        (processSource hashFn jsonParse now force source scrape ai existingRules db).db
          = (insertSuggestions source existingRules suggestions db 0).1 := by
  unfold processSource
  cases scrape with
  | error e => exact Or.inl rfl
  | ok content =>
    dsimp only
    split
    · exact Or.inl rfl
    · cases ai with
      | error e => exact Or.inl rfl
      | ok responseContent =>
        dsimp only
        cases hparse : (match extractArraySegment responseContent with
          | none => some []
          | some seg => jsonParse seg) with
        | none => exact Or.inl rfl
        | some suggestions => exact Or.inr ⟨suggestions, rfl⟩

/-- C6: before inserting an AI-produced suggestion, check-regulations skips
every suggestion whose `(state_id, suggested_name)` pair already has a
pending row; consequently a pipeline step keeps pending suggestions
duplicate-free and a pair that already has its single pending row never
gains a second one. -/
theorem c6_no_duplicate_pending (hashFn : String → String)
    (jsonParse : String → Option (List AISuggestion)) (now : String) (force : Bool)
    (source : RegulatorySource) (scrape ai : Except String String)
    (existingRules : List ExistingRule) (db : List SuggestionRow)
    (hdb : PendingNoDup db) :
    PendingNoDup
      (processSource hashFn jsonParse now force source scrape ai existingRules db).db ∧
    ∀ stateId name, countPendingMatches db stateId name = 1 →
      countPendingMatches
        (processSource hashFn jsonParse now force source scrape ai existingRules db).db
        stateId name = 1 := by
  rcases processSource_db_shape hashFn jsonParse now force source scrape ai
      existingRules db with h | ⟨suggestions, h⟩
  · rw [h]
    exact ⟨hdb, fun _ _ h1 => h1⟩
  · rw [h]
    exact insertSuggestions_pending_invariant source existingRules suggestions db 0 hdb

/-- C6 witness: a forced step over an empty suggestion table. -/
theorem c6_no_duplicate_pending_witness :
    PendingNoDup
      (processSource (fun _ => "xyz") (fun _ => some []) "2026-01-02" true sampleSource
        (.ok "page text") (.ok "[]") [] []).db ∧
    ∀ stateId name, countPendingMatches [] stateId name = 1 →
      countPendingMatches
        (processSource (fun _ => "xyz") (fun _ => some []) "2026-01-02" true sampleSource
          (.ok "page text") (.ok "[]") [] []).db stateId name = 1 :=
  c6_no_duplicate_pending (fun _ => "xyz") (fun _ => some []) "2026-01-02" true
    sampleSource (.ok "page text") (.ok "[]") [] []
    (fun stateId name => by simp [countPendingMatches])

/-- C7 counterexample: when the Diff Analyzer reply contains no JSON array,
check-regulations does not flag `parse_error`; the suggestion list stays
empty and the source's result has status `success`. -/
theorem c7_no_array_cex :
    (processSource (fun _ => "h1") (fun _ => none) "2026-01-02" false
        { id := "src1", state_id := "st1", source_name := "SRC",
          source_url := "https://x.gov", content_hash := none,
          last_checked := none, last_content_change := none }
        (.ok "page") (.ok "no labeling changes found") [] []).result
      = ⟨true, 0, "success"⟩ ∧ ("success" : String) ≠ "parse_error" := by
  decide

/-- C7 (amended): if the Diff Analyzer is reached and no top-level JSON
array can be located in its reply, the suggestion list is empty — no
suggestion row is inserted and `suggestions_created = 0` — and the source's
result status is `success`, not `parse_error`; `parse_error` is flagged
only when a located array segment fails to parse. -/
theorem c7_no_array_empty_suggestions (hashFn : String → String)
    (jsonParse : String → Option (List AISuggestion)) (now : String) (force : Bool)
    (source : RegulatorySource) (content responseContent : String)
    (existingRules : List ExistingRule) (db : List SuggestionRow)
    (hreach : ¬ (source.content_hash = some (hashFn content) ∧ force = false))
    (hnoarr : extractArraySegment responseContent = none) :
    (processSource hashFn jsonParse now force source (.ok content) (.ok responseContent)
        existingRules db).result.status = "success" ∧
    (processSource hashFn jsonParse now force source (.ok content) (.ok responseContent)
        existingRules db).result.suggestions_created = 0 ∧
    (processSource hashFn jsonParse now force source (.ok content) (.ok responseContent)
        existingRules db).db = db := by
  unfold processSource
  simp [hreach, hnoarr, insertSuggestions]

/-- C7 witness: the amended theorem at a concrete array-free reply. -/
theorem c7_no_array_empty_suggestions_witness :
    (processSource (fun _ => "xyz") (fun _ => none) "2026-01-02" true sampleSource
        (.ok "page text") (.ok "no labeling changes found") [] []).result.status
      = "success" ∧
    (processSource (fun _ => "xyz") (fun _ => none) "2026-01-02" true sampleSource
        (.ok "page text") (.ok "no labeling changes found") [] []).result.suggestions_created
      = 0 ∧
    (processSource (fun _ => "xyz") (fun _ => none) "2026-01-02" true sampleSource
        (.ok "page text") (.ok "no labeling changes found") [] []).db = [] :=
  c7_no_array_empty_suggestions (fun _ => "xyz") (fun _ => none) "2026-01-02" true
    sampleSource "page text" "no labeling changes found" [] []
    (by simp) (by decide)

/-- C4: approving an `update` suggestion against a rule whose version is at
least 1 (the schema default, preserved by every writer) sets the version to
exactly the previously read version plus 1, two sequential approvals add 1
each time, and category, severity, citation and validation_prompt fall back
to the current rule's values when the suggested fields are null. -/
theorem c4_update_version_and_fallbacks (r : ComplianceRule) (s s2 : RuleSuggestion)
    (hv : 1 ≤ r.version) :
    (applyUpdateApproval r s).version = r.version + 1 ∧
    (applyUpdateApproval (applyUpdateApproval r s) s2).version = r.version + 2 ∧
    (s.suggested_category = none → (applyUpdateApproval r s).category = r.category) ∧
    (s.suggested_severity = none → (applyUpdateApproval r s).severity = r.severity) ∧
    (s.suggested_citation = none → (applyUpdateApproval r s).citation = r.citation) ∧
    (s.suggested_validation_prompt = none →
      (applyUpdateApproval r s).validation_prompt = r.validation_prompt) := by
  have h1 : jsOrInt r.version 1 = r.version := by
    unfold jsOrInt
    rw [if_neg]
    omega
  have hstep : (applyUpdateApproval r s).version = r.version + 1 := by
    simp [applyUpdateApproval, h1]
  have h2 : jsOrInt (r.version + 1) 1 = r.version + 1 := by
    unfold jsOrInt
    rw [if_neg]
    omega
  refine ⟨hstep, ?_, ?_, ?_, ?_, ?_⟩
  · simp only [applyUpdateApproval]
    rw [h1, h2]
    omega
  · intro h
    simp [applyUpdateApproval, jsOrStr, h]
  · intro h
    simp [applyUpdateApproval, jsOrStr, h]
  · intro h
    simp [applyUpdateApproval, jsOrOptStr, h]
  · intro h
    simp [applyUpdateApproval, jsOrStr, h]

/-- C4 witness: two approvals against a version-1 rule whose suggestion
leaves all optional fields null. -/
theorem c4_update_version_and_fallbacks_witness :
    (applyUpdateApproval sampleRule sampleUpdateSuggestion).version
      = sampleRule.version + 1 ∧
    (applyUpdateApproval (applyUpdateApproval sampleRule sampleUpdateSuggestion)
        sampleUpdateSuggestion).version = sampleRule.version + 2 ∧
    (sampleUpdateSuggestion.suggested_category = none →
      (applyUpdateApproval sampleRule sampleUpdateSuggestion).category
        = sampleRule.category) ∧
    (sampleUpdateSuggestion.suggested_severity = none →
      (applyUpdateApproval sampleRule sampleUpdateSuggestion).severity
        = sampleRule.severity) ∧
    (sampleUpdateSuggestion.suggested_citation = none →
      (applyUpdateApproval sampleRule sampleUpdateSuggestion).citation
        = sampleRule.citation) ∧
    (sampleUpdateSuggestion.suggested_validation_prompt = none →
      (applyUpdateApproval sampleRule sampleUpdateSuggestion).validation_prompt
        = sampleRule.validation_prompt) :=
  c4_update_version_and_fallbacks sampleRule sampleUpdateSuggestion
    sampleUpdateSuggestion (by decide)

/-- C5: rejecting a suggestion updates only that suggestion's own status,
reviewed_by, reviewed_at and review_notes: the rules table and the audit
log are untouched, no suggestion row is created or deleted, suggestions
with a different id are unchanged, and the target row keeps its other
fields. -/
theorem c5_reject_frame (db : AdminDb) (userId : Option String) (now notes sid : String) :
    (handleReject db userId now notes sid).rules = db.rules ∧
    (handleReject db userId now notes sid).audit_log = db.audit_log ∧
    (handleReject db userId now notes sid).suggestions.length = db.suggestions.length ∧
    (∀ s ∈ db.suggestions, s.id ≠ sid →
      s ∈ (handleReject db userId now notes sid).suggestions) ∧
    (∀ s2 ∈ (handleReject db userId now notes sid).suggestions,
      s2 ∈ db.suggestions ∨
      (s2.id = sid ∧ s2.status = "rejected" ∧ s2.reviewed_by = userId ∧
       s2.reviewed_at = some now ∧ s2.review_notes = some notes ∧
       ∃ s0, s0 ∈ db.suggestions ∧ s0.id = sid ∧
         s2.state_id = s0.state_id ∧ s2.existing_rule_id = s0.existing_rule_id ∧
         s2.change_type = s0.change_type ∧ s2.suggested_name = s0.suggested_name ∧
         s2.suggested_description = s0.suggested_description ∧
         s2.created_at = s0.created_at)) := by
  refine ⟨rfl, rfl, by simp [handleReject], ?_, ?_⟩
  · intro s hs hne
    simp only [handleReject]
    exact List.mem_map.mpr ⟨s, hs, if_neg hne⟩
  · intro s2 hs2
    rcases List.mem_map.mp hs2 with ⟨s0, hs0, heq⟩
    by_cases h : s0.id = sid
    · right
      rw [if_pos h] at heq
      refine ⟨?_, ?_, ?_, ?_, ?_, s0, hs0, h, ?_, ?_, ?_, ?_, ?_, ?_⟩ <;>
        simp [← heq, h]
    · left
      rw [if_neg h] at heq
      rwa [← heq]

/-- C5 witness: rejecting the sample pending suggestion. -/
theorem c5_reject_frame_witness :
    (handleReject sampleAdminDb (some "admin1") "2026-01-02" "not applicable"
        "sugg1").rules = sampleAdminDb.rules ∧
    (handleReject sampleAdminDb (some "admin1") "2026-01-02" "not applicable"
        "sugg1").audit_log = sampleAdminDb.audit_log ∧
    (handleReject sampleAdminDb (some "admin1") "2026-01-02" "not applicable"
        "sugg1").suggestions.length = sampleAdminDb.suggestions.length ∧
    (∀ s ∈ sampleAdminDb.suggestions, s.id ≠ "sugg1" →
      s ∈ (handleReject sampleAdminDb (some "admin1") "2026-01-02" "not applicable"
        "sugg1").suggestions) ∧
    (∀ s2 ∈ (handleReject sampleAdminDb (some "admin1") "2026-01-02" "not applicable"
        "sugg1").suggestions,
      s2 ∈ sampleAdminDb.suggestions ∨
      (s2.id = "sugg1" ∧ s2.status = "rejected" ∧ s2.reviewed_by = some "admin1" ∧
       s2.reviewed_at = some "2026-01-02" ∧ s2.review_notes = some "not applicable" ∧
       ∃ s0, s0 ∈ sampleAdminDb.suggestions ∧ s0.id = "sugg1" ∧
         s2.state_id = s0.state_id ∧ s2.existing_rule_id = s0.existing_rule_id ∧
         s2.change_type = s0.change_type ∧ s2.suggested_name = s0.suggested_name ∧
         s2.suggested_description = s0.suggested_description ∧
         s2.created_at = s0.created_at)) :=
  c5_reject_frame sampleAdminDb (some "admin1") "2026-01-02" "not applicable" "sugg1"

/-- A suggestion kept by the Groq `validateSuggestions` loop always carries
some source URL. -/
theorem gValidateStep_ok_url (isValidUrl : String → Bool)
    (stateBaseUrl : Option String) (fallbackSources : List String)
    (s kept : GSuggestedChange)
    (h : gValidateStep isValidUrl stateBaseUrl fallbackSources s = .ok kept) :
    ∃ u, kept.suggestedSourceUrl = some u := by
  unfold gValidateStep at h
  dsimp only at h
  split at h
  · exact Except.noConfusion h
  · split at h
    · cases h
      exact ⟨_, rfl⟩
    · split at h
      · cases h
        exact ⟨_, rfl⟩
      · exact Except.noConfusion h

/-- C8 counterexample: the Perplexity pipeline keeps a suggestion that
carries no source URL and stores it with a null URL, so not every stored
suggestion carries a URL drawn from the verified set. -/
theorem c8_verified_url_cex :
    ¬ (∀ row ∈ perplexityStoredRows "st1" ["https://rules.mt.gov/"]
          [samplePSuggestionNoUrl],
        carriesVerifiedUrl ["https://rules.mt.gov/"] row = true) := by
  decide

/-- C8 (amended): in the Perplexity variant, every suggestion carrying a
non-empty source URL that cannot be matched (by substring inclusion in
either direction) against the verified URL list is discarded before
storage, so every stored row carries either a verified-matched URL or no
URL at all; the Groq variant's validateSuggestions only guarantees that
every kept suggestion carries some URL (its own when syntactically valid,
otherwise a fallback), with no verified-set membership check. -/
theorem c8_verified_url_filter_amended (verifiedUrls : List String)
    (suggestions : List PRuleSuggestion) (stateId : String)
    (isValidUrl : String → Bool) (stateAbbrev : String)
    (fallbackSources : List String) (gl : List GSuggestedChange) :
    (∀ s ∈ validatedSuggestions verifiedUrls suggestions,
      ∀ u, s.suggestedSourceUrl = some u → u ≠ "" →
        matchesVerified verifiedUrls u = true) ∧
    (∀ row ∈ perplexityStoredRows stateId verifiedUrls suggestions,
      row.suggested_source_url = none ∨ carriesVerifiedUrl verifiedUrls row = true) ∧
    (∀ g ∈ (gValidateSuggestions isValidUrl stateAbbrev fallbackSources gl).valid,
      ∃ u, g.suggestedSourceUrl = some u) := by
  have hkeep : ∀ s ∈ validatedSuggestions verifiedUrls suggestions,
      ∀ u, s.suggestedSourceUrl = some u → u ≠ "" →
        matchesVerified verifiedUrls u = true := by
    intro s hs u hu hne
    have hp := (List.mem_filter.mp hs).2
    rw [hu] at hp
    simpa [hne] using hp
  refine ⟨hkeep, ?_, ?_⟩
  · intro row hrow
    rcases List.mem_map.mp hrow with ⟨s, hs, heq⟩
    have hfield : row.suggested_source_url = jsOrNull s.suggestedSourceUrl := by
      rw [← heq]
      rfl
    match hcase : s.suggestedSourceUrl with
    | none =>
      left
      rw [hfield, hcase]
      rfl
    | some u =>
      by_cases hne : u = ""
      · left
        rw [hfield, hcase]
        simp [jsOrNull, hne]
      · right
        have hmatch := hkeep s hs u hcase hne
        rw [carriesVerifiedUrl, hfield, hcase]
        simpa [jsOrNull, hne] using hmatch
  · induction gl with
    | nil => intro g hg; exact absurd hg (by simp [gValidateSuggestions])
    | cons s rest ih =>
      intro g hg
      rw [gValidateSuggestions] at hg
      revert hg
      cases hstep : gValidateStep isValidUrl (stateRegulatoryBase stateAbbrev)
          fallbackSources s with
      | ok kept =>
        intro hg
        rcases List.mem_cons.mp hg with h | h
        · exact h ▸ gValidateStep_ok_url _ _ _ _ _ hstep
        · exact ih g h
      | error reason =>
        intro hg
        exact ih g hg

/-- C8 witness: the amended theorem at concrete inputs — a kept suggestion
whose URL matches the verified list, and a Groq list with one change. -/
theorem c8_verified_url_filter_amended_witness :
    (∀ s ∈ validatedSuggestions ["https://rules.mt.gov/"]
        [samplePSuggestionGoodUrl, samplePSuggestionNoUrl],
      ∀ u, s.suggestedSourceUrl = some u → u ≠ "" →
        matchesVerified ["https://rules.mt.gov/"] u = true) ∧
    (∀ row ∈ perplexityStoredRows "st1" ["https://rules.mt.gov/"]
        [samplePSuggestionGoodUrl, samplePSuggestionNoUrl],
      row.suggested_source_url = none ∨
        carriesVerifiedUrl ["https://rules.mt.gov/"] row = true) ∧
    (∀ g ∈ (gValidateSuggestions (fun _ => true) "MT" ["https://dphhs.mt.gov/"]
        [sampleGSuggestion]).valid,
      ∃ u, g.suggestedSourceUrl = some u) :=
  c8_verified_url_filter_amended ["https://rules.mt.gov/"]
    [samplePSuggestionGoodUrl, samplePSuggestionNoUrl] "st1"
    (fun _ => true) "MT" ["https://dphhs.mt.gov/"] [sampleGSuggestion]

/-- C9 counterexample: `"1 CCR 212-3"` for state `"CO"` does not resolve to
the Colorado MED rules listing page: the CCR pattern matches first and
yields the Secretary of State CCR rule page. -/
theorem c9_colorado_ccr_cex :
    (resolveCitation (some "1 CCR 212-3") "CO" none).url
      ≠ some "https://med.colorado.gov/rules" := by
  decide

/-- C9 (amended): `"1 CCR 212-3"` for state `"CO"` resolves to the Colorado
Secretary of State CCR DisplayRule page for series 212 as a search-type
result (`isDirectLink = false`), not to the MED rules listing page (which
is only the fallback when no CCR/CRS pattern matches). -/
theorem c9_colorado_ccr_amended :
    resolveCitation (some "1 CCR 212-3") "CO" none
      = { url := some
            "https://www.sos.state.co.us/CCR/DisplayRule.do?action=ruleinfo&ruleId=212&deptID=16",
          displayText := "1 CCR 212-3", isDirectLink := false } := by
  decide

/-- C10 counterexample: with citation `""` (neither null nor undefined) and
a non-empty provided URL, displayText is `View Source`, not the citation:
JS `||` treats the empty string as falsy. -/
theorem c10_provided_url_cex :
    (resolveCitation (some "") "MT" (some "https://example.gov/rule")).displayText
      ≠ "" := by
  decide

/-- C10 (amended): for every citation, state abbreviation and non-empty
providedUrl, resolveCitation returns providedUrl verbatim with
`isDirectLink = true`, bypassing all state-specific and generic resolvers
(the result does not depend on the state), and displayText equals the
citation when it is a non-empty string and `View Source` when the citation
is null/undefined or empty. -/
theorem c10_provided_url_amended (citation : Option String) (st st2 u : String)
    (hu : u ≠ "") :
    (resolveCitation citation st (some u)).url = some u ∧
    (resolveCitation citation st (some u)).isDirectLink = true ∧
    (citation = none → (resolveCitation citation st (some u)).displayText
      = "View Source") ∧
    (∀ c, citation = some c → (resolveCitation citation st (some u)).displayText
      = (if c = "" then "View Source" else c)) ∧
    resolveCitation citation st (some u) = resolveCitation citation st2 (some u) := by
  unfold resolveCitation
  refine ⟨by simp [hu], by simp [hu], ?_, ?_, by simp [hu]⟩
  · intro h
    simp [hu, h, jsOrStr]
  · intro c h
    simp [hu, h, jsOrStr]

/-- C10 witness: the amended theorem at a concrete citation, two states and
a concrete provided URL. -/
theorem c10_provided_url_amended_witness :
    (resolveCitation (some "ARM 37.107.402") "MT"
        (some "https://example.gov/rule")).url = some "https://example.gov/rule" ∧
    (resolveCitation (some "ARM 37.107.402") "MT"
        (some "https://example.gov/rule")).isDirectLink = true ∧
    ((some "ARM 37.107.402" : Option String) = none →
      (resolveCitation (some "ARM 37.107.402") "MT"
        (some "https://example.gov/rule")).displayText = "View Source") ∧
    (∀ c, (some "ARM 37.107.402" : Option String) = some c →
      (resolveCitation (some "ARM 37.107.402") "MT"
        (some "https://example.gov/rule")).displayText
        = (if c = "" then "View Source" else c)) ∧
    resolveCitation (some "ARM 37.107.402") "MT" (some "https://example.gov/rule")
      = resolveCitation (some "ARM 37.107.402") "CO" (some "https://example.gov/rule") :=
  c10_provided_url_amended (some "ARM 37.107.402") "MT" "CO"
    "https://example.gov/rule" (by decide)

end LabelCheck
